import Mathlib

/-!
Shallow embedding of the notification addressing and access-control core of
MyCampusRide (src/backend/controllers/notificationController.js and
src/backend/routes/notifications.js).

Roles and receiver roles are JavaScript strings in the source and are kept as
`String` here; user and object ids are modelled as `Nat` (the source compares
them with `toString()` equality on ObjectIds, i.e. plain equality).
External collaborators (the Mongo store, the User and Bus collections) are
passed in explicitly: a `List UserRec` for `User.find*`, an `Option Bus` for
`Bus.findOne({driverId})`, a `List Student` for the students assigned to the
bus, and an explicit failure-injection argument for `Notification.create`.
-/

namespace CampusRide

/-- `relatedEntity` tag `{type, id}` attached to some notifications. -/
structure RelatedEntity where
  type : String
  id : Nat
  deriving DecidableEq, Repr

/-- The open `metadata` mapping; only the keys the controller ever writes are
modelled, each optional (absent = `none`). -/
structure Metadata where
  intendedRole : Option String := none
  originalTarget : Option String := none
  busNumber : Option String := none
  routeName : Option String := none
  studentCount : Option Nat := none
  driverName : Option String := none
  deriving DecidableEq, Repr

/-- A stored notification record, with the fields the controller reads or
writes. `receiverId` is nullable (`none` = null). -/
structure Notification where
  title : String
  message : String
  type : String
  senderRole : String
  senderId : Nat
  receiverRole : String
  receiverId : Option Nat
  priority : String
  relatedEntity : Option RelatedEntity := none
  metadata : Metadata := {}
  isRead : Bool := false
  deriving DecidableEq, Repr

/-- The authenticated actor `req.user` (`{_id, role, name}`). -/
structure Sender where
  id : Nat
  role : String
  name : String
  deriving DecidableEq, Repr

/-- A record of the User collection as the controller consults it. -/
structure UserRec where
  id : Nat
  role : String
  deriving DecidableEq, Repr

/-- A student assigned to a bus (`User.find({role:student, assignedBus})`). -/
structure Student where
  id : Nat
  name : String
  deriving DecidableEq, Repr

/-- The driver's assigned bus; `routeName` models `bus.routeId?.routeName`
(`none` when the route is missing). -/
structure Bus where
  id : Nat
  busNumber : String
  routeName : Option String
  deriving DecidableEq, Repr

/-- Error responses of the controller, carrying the HTTP-status discriminator
and the message; `serverError` additionally carries `error.message` of the
caught exception (the 500 body of `sendTargetedNotification`). -/
inductive ApiErr
  | forbidden (msg : String)
  | notFound (msg : String)
  | badRequest (msg : String)
  | serverError (msg : String) (err : String)
  deriving DecidableEq, Repr

/-- The `hasAccess` expression of `getNotification` (lines 83-87), duplicated
verbatim in `markAsRead` (lines 119-123):
`receiverId && receiverId.toString() === userId.toString() || receiverRole === userRole || receiverRole === 'all' || (userRole === 'admin' && metadata?.intendedRole === 'admin')`. -/
def hasAccessView (n : Notification) (userId : Nat) (userRole : String) : Bool :=
  (match n.receiverId with
   | some rid => rid == userId
   | none => false)
  || n.receiverRole == userRole
  || n.receiverRole == "all"
  || (userRole == "admin" && n.metadata.intendedRole == some "admin")

/-- The `hasAccess` expression of `deleteNotification` (lines 414-418): the
same first three clauses, with an unconditional `userRole === 'admin'` as the
fourth. -/
def hasAccessDelete (n : Notification) (userId : Nat) (userRole : String) : Bool :=
  (match n.receiverId with
   | some rid => rid == userId
   | none => false)
  || n.receiverRole == userRole
  || n.receiverRole == "all"
  || userRole == "admin"

/-- The listing `$or` filter of `getNotifications` (lines 15-28), also built
by `markAllAsRead`: `receiverId == userId` or `receiverRole == userRole` or
`receiverRole == 'all'`, and for admin viewers additionally
`metadata.intendedRole == 'admin'`. A Mongo equality clause on a nullable
field matches only a non-null equal value, hence `Option` equality. -/
def matchesListFilter (n : Notification) (userId : Nat) (userRole : String) : Bool :=
  n.receiverId == some userId
  || n.receiverRole == userRole
  || n.receiverRole == "all"
  || (userRole == "admin" && n.metadata.intendedRole == some "admin")

/-- The `$match` filter of `getNotificationStats` (lines 442-448): only the
three base clauses, with no admin-tag clause for any viewer. -/
def matchesStatsFilter (n : Notification) (userId : Nat) (userRole : String) : Bool :=
  n.receiverId == some userId
  || n.receiverRole == userRole
  || n.receiverRole == "all"

/-- `getNotification` (lines 68-100): 404 when absent, 403 when `hasAccess`
fails, otherwise the record. -/
def getNotificationOp (found : Option Notification) (userId : Nat) (userRole : String) :
    Except ApiErr Notification :=
  match found with
  | none => .error (.notFound "Notification not found")
  | some n =>
    if hasAccessView n userId userRole then .ok n
    else .error (.forbidden "Access denied to this notification")

/-- Modelled from the spec: `notification.markAsRead()` lives in
`models/Notification.js`, which is not under src/; per the spec it flips
`isRead` to true (`readAt` is not consulted by any claim). -/
def markRead (n : Notification) : Notification :=
  { n with isRead := true }

/-- `markAsRead` (lines 105-140): 404 when absent, 403 when the (duplicated)
`hasAccess` fails, otherwise marks the record read and returns it. -/
def markAsReadOp (found : Option Notification) (userId : Nat) (userRole : String) :
    Except ApiErr Notification :=
  match found with
  | none => .error (.notFound "Notification not found")
  | some n =>
    if hasAccessView n userId userRole then .ok (markRead n)
    else .error (.forbidden "Access denied to this notification")

/-- `deleteNotification` (lines 400-433): 404 when absent, 403 when the delete
variant of `hasAccess` fails, otherwise deletes. -/
def deleteNotificationOp (found : Option Notification) (userId : Nat) (userRole : String) :
    Except ApiErr Unit :=
  match found with
  | none => .error (.notFound "Notification not found")
  | some n =>
    if hasAccessDelete n userId userRole then .ok ()
    else .error (.forbidden "Access denied to delete this notification")

/-- The request body of `createNotification` (lines 335-343). -/
structure CreateReq where
  title : String
  message : String
  type : Option String := none
  receiverRole : String
  receiverId : Option Nat := none
  priority : Option String := none
  relatedEntity : Option RelatedEntity := none
  deriving DecidableEq, Repr

/-- The record `createNotification` persists (lines 375-385): request fields
with `type || 'info'` and `priority || 'medium'` defaults and the sender's
identity denormalized in. -/
def directDraft (user : Sender) (req : CreateReq) : Notification :=
  { title := req.title
    message := req.message
    type := req.type.getD "info"
    senderRole := user.role
    senderId := user.id
    receiverRole := req.receiverRole
    receiverId := req.receiverId
    priority := req.priority.getD "medium"
    relatedEntity := req.relatedEntity }

/-- `createNotification` (lines 330-395). `users` stands for the User
collection consulted by `User.findById(receiverId)`. The second component is
the list of records persisted by the call. -/
def createNotificationOp (user : Sender) (req : CreateReq) (users : List UserRec) :
    Except ApiErr Notification × List Notification :=
  if req.receiverRole == "admin" && user.role != "admin" then
    (.error (.forbidden "Only admins can send notifications to other admins"), [])
  else
    match req.receiverId with
    | some rid =>
      match users.find? (fun u => u.id == rid) with
      | none => (.error (.notFound "Receiver not found"), [])
      | some receiver =>
        if receiver.role != req.receiverRole then
          (.error (.badRequest "Receiver role does not match specified role"), [])
        else
          (.ok (directDraft user req), [directDraft user req])
    | none => (.ok (directDraft user req), [directDraft user req])

/-- The request body of `broadcastNotification` (line 512); `targetRoles` is
`none` when the field is absent/null. -/
structure BroadcastReq where
  title : String
  message : String
  type : Option String := none
  priority : Option String := none
  targetRoles : Option (List String) := none
  deriving DecidableEq, Repr

/-- One record of the broadcast loop body (lines 525-534). -/
def broadcastDraft (user : Sender) (req : BroadcastReq) (role : String) : Notification :=
  { title := req.title
    message := req.message
    type := req.type.getD "info"
    senderRole := "admin"
    senderId := user.id
    receiverRole := role
    receiverId := none
    priority := req.priority.getD "medium" }

/-- `broadcastNotification` (lines 511-543): 400 when `targetRoles` is absent
or empty, otherwise one record created per listed role. The second component
is the list of records persisted by the call. -/
def broadcastNotificationOp (user : Sender) (req : BroadcastReq) :
    Except ApiErr (List Notification) × List Notification :=
  match req.targetRoles with
  | none => (.error (.badRequest "Target roles are required for broadcast"), [])
  | some roles =>
    if roles.isEmpty then
      (.error (.badRequest "Target roles are required for broadcast"), [])
    else
      (.ok (roles.map (broadcastDraft user req)), roles.map (broadcastDraft user req))

/-- The request body of `sendTargetedNotification` (line 184). -/
structure TargetedReq where
  title : String
  message : String
  type : Option String := none
  priority : Option String := none
  targetType : String
  deriving DecidableEq, Repr

/-- The per-student record of the `targetType === 'students'` loop
(lines 234-251). -/
def studentDraft (user : Sender) (req : TargetedReq) (b : Bus) (s : Student) : Notification :=
  { title := req.title
    message := req.message
    type := req.type.getD "info"
    senderRole := user.role
    senderId := user.id
    receiverRole := "student"
    receiverId := some s.id
    priority := req.priority.getD "medium"
    relatedEntity := some { type := "bus", id := b.id }
    metadata := { busNumber := some b.busNumber
                  routeName := some (b.routeName.getD "Unknown Route") } }

/-- The admin-copy record of the `targetType === 'students'` branch
(lines 266-286): broadcast-shaped (`receiverRole = 'all'`, `receiverId =
null`) and tagged `metadata.intendedRole = 'admin'`. -/
def adminCopyStudents (user : Sender) (req : TargetedReq) (b : Bus) (count : Nat) :
    Notification :=
  { title := "[Driver: " ++ user.name ++ "] " ++ req.title
    message := "To students on bus " ++ b.busNumber ++ ": " ++ req.message
    type := "info"
    senderRole := "driver"
    senderId := user.id
    receiverRole := "all"
    receiverId := none
    priority := req.priority.getD "medium"
    relatedEntity := some { type := "bus", id := b.id }
    metadata := { intendedRole := some "admin"
                  originalTarget := some "students"
                  busNumber := some b.busNumber
                  routeName := some (b.routeName.getD "Unknown Route")
                  studentCount := some count } }

/-- The single admin-copy record of the `targetType === 'admin'` branch
(lines 291-304). -/
def adminCopyDirect (user : Sender) (req : TargetedReq) : Notification :=
  { title := "[Driver: " ++ user.name ++ "] " ++ req.title
    message := req.message
    type := req.type.getD "info"
    senderRole := "driver"
    senderId := user.id
    receiverRole := "all"
    receiverId := none
    priority := req.priority.getD "medium"
    metadata := { intendedRole := some "admin"
                  driverName := some user.name } }

/-- Failure injection for `Notification.create` inside the try block: `some
(k, e)` means the k-th create call (0-indexed, in request order) throws an
exception whose message is `e`; `none` means every create succeeds. Returns
the records actually persisted plus the thrown message, if any. -/
def persistUpTo (drafts : List Notification) (failAt : Option (Nat × String)) :
    List Notification × Option String :=
  match failAt with
  | none => (drafts, none)
  | some (k, e) => if k < drafts.length then (drafts.take k, some e) else (drafts, none)

/-- `sendTargetedNotification` (lines 179-328). `bus` stands for
`Bus.findOne({driverId: senderId})`, `students` for
`User.find({role:'student', assignedBus: bus._id})`. Creates happen in
request order (one per student, then the admin copy); a thrown create error
reaches the catch block, which answers 500 with the fixed message and the
error's own message, leaving already-persisted records in place. The second
component is the list of records persisted by the call. -/
def sendTargetedNotificationOp (user : Sender) (req : TargetedReq) (bus : Option Bus)
    (students : List Student) (failAt : Option (Nat × String)) :
    Except ApiErr (List Notification) × List Notification :=
  if user.role != "driver" then
    (.error (.forbidden "Only drivers can send targeted notifications"), [])
  else if req.targetType != "students" && req.targetType != "admin" then
    (.error (.badRequest "Invalid target type. Must be \"students\" or \"admin\""), [])
  else if req.targetType == "students" then
    match bus with
    | none => (.error (.notFound "No bus assigned to you"), [])
    | some b =>
      let drafts := students.map (studentDraft user req b)
        ++ [adminCopyStudents user req b students.length]
      match persistUpTo drafts failAt with
      | (persisted, none) => (.ok persisted, persisted)
      | (persisted, some e) =>
        (.error (.serverError "Failed to send notification" e), persisted)
  else
    let drafts := [adminCopyDirect user req]
    match persistUpTo drafts failAt with
    | (persisted, none) => (.ok persisted, persisted)
    | (persisted, some e) =>
      (.error (.serverError "Failed to send notification" e), persisted)

/-! Concrete sample values used by counterexamples and witnesses. -/

/-- A sample driver actor. -/
def sampleDriver : Sender := ⟨5, "driver", "Dan"⟩

/-- A sample admin actor. -/
def sampleAdmin : Sender := ⟨1, "admin", "Ann"⟩

/-- A sample bus assigned to `sampleDriver`. -/
def sampleBus : Bus := ⟨7, "B7", some "Route 1"⟩

/-- Two sample students assigned to `sampleBus`. -/
def sampleStudentA : Student := ⟨10, "Stu A"⟩

/-- Second sample student. -/
def sampleStudentB : Student := ⟨11, "Stu B"⟩

/-- A sample targeted-send request with `targetType = students`. -/
def sampleTargetedReq : TargetedReq :=
  { title := "t", message := "m", targetType := "students" }

/-- A sample direct-create request addressed to student id 10. -/
def sampleDirectReq : CreateReq :=
  { title := "t", message := "m", receiverRole := "student", receiverId := some 10 }

/-- A record shape outside the code's own output: role-scoped (`receiverRole
= student`), no receiverId, yet tagged `metadata.intendedRole = admin`. -/
def oddTaggedRecord : Notification :=
  { title := "x", message := "y", type := "info", senderRole := "admin", senderId := 1
    receiverRole := "student", receiverId := none, priority := "medium"
    metadata := { intendedRole := some "admin" } }

/-- C1. The claim says an admin-copy record (`receiverRole = all`,
`metadata.intendedRole = admin`) is invisible to a non-admin viewer with a
different id. The code's view check has a bare `receiverRole === 'all'`
clause, so the admin copy produced by the driver-to-students fan-out is
visible to a plain student (id 99): the claim is false. -/
theorem C1_counterexample :
    (adminCopyStudents sampleDriver sampleTargetedReq sampleBus 0).receiverRole = "all"
    ∧ (adminCopyStudents sampleDriver sampleTargetedReq sampleBus 0).metadata.intendedRole
        = some "admin"
    ∧ (adminCopyStudents sampleDriver sampleTargetedReq sampleBus 0).receiverId = none
    ∧ hasAccessView (adminCopyStudents sampleDriver sampleTargetedReq sampleBus 0)
        99 "student" = true :=
  ⟨rfl, rfl, rfl, rfl⟩

/-- C1 (amended). Every record with `receiverRole = all` passes the view
check for every viewer, whatever `metadata.intendedRole` holds: the tag never
restricts visibility, it only extends an admin's access. -/
theorem C1_all_visible (n : Notification) (userId : Nat) (userRole : String)
    (h : n.receiverRole = "all") :
    hasAccessView n userId userRole = true := by
  unfold hasAccessView
  simp [h]

/-- C1 witness: a plain broadcast record is visible to a driver viewer. -/
theorem C1_all_visible_witness :
    hasAccessView (broadcastDraft sampleAdmin
      { title := "t", message := "m", targetRoles := some ["all"] } "all") 42 "driver"
      = true :=
  C1_all_visible _ 42 "driver" rfl

/-- C5. The delete-access check equals the view-access check extended by an
unconditional allowance for role admin, as the spec states: the admin-tag
clause of the view check is absorbed by the unconditional admin clause. -/
theorem C5_delete_eq_view_or_admin (n : Notification) (userId : Nat) (userRole : String) :
    hasAccessDelete n userId userRole
      = (hasAccessView n userId userRole || userRole == "admin") := by
  unfold hasAccessView hasAccessDelete
  cases n.receiverId <;> cases h : (userRole == "admin") <;> simp [h]

/-- C6. For a non-admin viewer the listing filter of `getNotifications`
agrees with the view-access check of `getNotification` on every record. -/
theorem C6_list_filter_eq_view (n : Notification) (userId : Nat) (userRole : String)
    (h : userRole ≠ "admin") :
    matchesListFilter n userId userRole = hasAccessView n userId userRole := by
  have hb : (userRole == "admin") = false := by simp [h]
  unfold matchesListFilter hasAccessView
  cases n.receiverId <;> simp [hb]

/-- C6 witness: filter and view check agree for a student viewer on a
concrete directly-addressed record. -/
theorem C6_list_filter_eq_view_witness :
    matchesListFilter (directDraft sampleAdmin sampleDirectReq) 10 "student"
      = hasAccessView (directDraft sampleAdmin sampleDirectReq) 10 "student" :=
  C6_list_filter_eq_view _ 10 "student" (by decide)

/-- C10. Any record with `receiverRole = all` — including admin-copy records
tagged `metadata.intendedRole = admin` — passes the delete access check for
every viewer, so the delete operation succeeds for students and drivers
alike. -/
theorem C10_anyone_deletes_broadcast (n : Notification) (userId : Nat) (userRole : String)
    (h : n.receiverRole = "all") :
    deleteNotificationOp (some n) userId userRole = .ok () := by
  have hacc : hasAccessDelete n userId userRole = true := by
    unfold hasAccessDelete
    simp [h]
  simp [deleteNotificationOp, hacc]

/-- C10 witness: a student (id 31) deletes the admin-copy record of a
driver fan-out. -/
theorem C10_anyone_deletes_broadcast_witness :
    deleteNotificationOp
      (some (adminCopyStudents sampleDriver sampleTargetedReq sampleBus 2)) 31 "student"
      = .ok () :=
  C10_anyone_deletes_broadcast _ 31 "student" rfl

/-- C2. The claim says a student S2 other than the addressee S cannot view
an admin-created notification with `receiverRole = student`, `receiverId =
S`. The code's `receiverRole === userRole` clause makes it visible to every
student: at S = 10, the record created by `createNotification` is visible to
student 11. -/
theorem C2_counterexample :
    createNotificationOp sampleAdmin sampleDirectReq [⟨10, "student"⟩]
      = (.ok (directDraft sampleAdmin sampleDirectReq),
         [directDraft sampleAdmin sampleDirectReq])
    ∧ (directDraft sampleAdmin sampleDirectReq).receiverRole = "student"
    ∧ (directDraft sampleAdmin sampleDirectReq).receiverId = some 10
    ∧ hasAccessView (directDraft sampleAdmin sampleDirectReq) 11 "student" = true :=
  ⟨rfl, rfl, rfl, rfl⟩

/-- C2 (amended). For an admin-created direct notification to student S: S
can view, mark-read and delete it; no driver (with id other than S) can view
it; but every other student can also view it, through the role-match
clause. -/
theorem C2_direct_student_access (user : Sender) (req : CreateReq) (s s2 d : Nat)
    (hrr : req.receiverRole = "student") (hrid : req.receiverId = some s)
    (hd : d ≠ s) :
    createNotificationOp user req [⟨s, "student"⟩]
      = (.ok (directDraft user req), [directDraft user req])
    ∧ hasAccessView (directDraft user req) s "student" = true
    ∧ markAsReadOp (some (directDraft user req)) s "student"
        = .ok (markRead (directDraft user req))
    ∧ deleteNotificationOp (some (directDraft user req)) s "student" = .ok ()
    ∧ hasAccessView (directDraft user req) d "driver" = false
    ∧ hasAccessView (directDraft user req) s2 "student" = true := by
  have hview : hasAccessView (directDraft user req) s "student" = true := by
    unfold hasAccessView directDraft
    simp [hrid]
  have hdel : hasAccessDelete (directDraft user req) s "student" = true := by
    unfold hasAccessDelete directDraft
    simp [hrid]
  have hsd : (s == d) = false := by
    simp [beq_eq_false_iff_ne]
    exact fun h => hd h.symm
  refine ⟨?_, hview, ?_, ?_, ?_, ?_⟩
  · unfold createNotificationOp
    simp [hrr, hrid, List.find?]
  · simp [markAsReadOp, hview]
  · simp [deleteNotificationOp, hdel]
  · unfold hasAccessView directDraft
    simp [hrid, hrr, hsd]
  · unfold hasAccessView directDraft
    simp [hrr]

/-- C2 witness: concrete scenario with S = 10, S2 = 12, driver id 20. -/
theorem C2_direct_student_access_witness :
    createNotificationOp sampleAdmin sampleDirectReq [⟨10, "student"⟩]
      = (.ok (directDraft sampleAdmin sampleDirectReq),
         [directDraft sampleAdmin sampleDirectReq])
    ∧ hasAccessView (directDraft sampleAdmin sampleDirectReq) 10 "student" = true
    ∧ markAsReadOp (some (directDraft sampleAdmin sampleDirectReq)) 10 "student"
        = .ok (markRead (directDraft sampleAdmin sampleDirectReq))
    ∧ deleteNotificationOp (some (directDraft sampleAdmin sampleDirectReq)) 10 "student"
        = .ok ()
    ∧ hasAccessView (directDraft sampleAdmin sampleDirectReq) 20 "driver" = false
    ∧ hasAccessView (directDraft sampleAdmin sampleDirectReq) 12 "student" = true :=
  C2_direct_student_access sampleAdmin sampleDirectReq 10 12 20 rfl rfl (by decide)

/-- C3. The claim says the statistics filter matches the same records as the
listing filter for every viewer, in particular admin-tagged records for an
admin viewer. The stats `$match` omits the admin-tag clause: a record
matched only through `metadata.intendedRole = admin` (here one with
`receiverRole = student`, no receiverId) is matched by the admin's listing
filter but not by the admin's statistics filter. -/
theorem C3_counterexample :
    oddTaggedRecord.metadata.intendedRole = some "admin"
    ∧ matchesListFilter oddTaggedRecord 1 "admin" = true
    ∧ matchesStatsFilter oddTaggedRecord 1 "admin" = false :=
  ⟨rfl, rfl, rfl⟩

/-- C3 (amended). For every non-admin viewer the statistics filter matches
exactly the records the listing filter matches; for an admin viewer the
statistics filter omits the `metadata.intendedRole = admin` clause, so a
record matched only through that clause is listed but missed by the
statistics aggregation. -/
theorem C3_stats_eq_list_for_non_admin (n : Notification) (userId : Nat) (userRole : String)
    (h : userRole ≠ "admin") :
    matchesStatsFilter n userId userRole = matchesListFilter n userId userRole := by
  have hb : (userRole == "admin") = false := by simp [h]
  unfold matchesStatsFilter matchesListFilter
  simp [hb]

/-- C3 witness: stats and listing filters agree for a driver viewer on the
odd tagged record. -/
theorem C3_stats_eq_list_for_non_admin_witness :
    matchesStatsFilter oddTaggedRecord 3 "driver"
      = matchesListFilter oddTaggedRecord 3 "driver" :=
  C3_stats_eq_list_for_non_admin oddTaggedRecord 3 "driver" (by decide)

/-- C4. A driver's `targetType = students` send against a bus with K
assigned students persists exactly K+1 records: the K per-student records
(`receiverRole = student`, `receiverId` the respective student's id, in
order) followed by exactly one broadcast-shaped admin copy (`receiverRole =
all`, `receiverId = null`, `metadata.intendedRole = admin`) — also when
K = 0, since the admin-copy create sits outside the student loop. -/
theorem C4_targeted_students_fanout (user : Sender) (req : TargetedReq) (b : Bus)
    (students : List Student)
    (hrole : user.role = "driver") (htt : req.targetType = "students") :
    sendTargetedNotificationOp user req (some b) students none
      = (.ok (students.map (studentDraft user req b)
               ++ [adminCopyStudents user req b students.length]),
         students.map (studentDraft user req b)
           ++ [adminCopyStudents user req b students.length])
    ∧ (students.map (studentDraft user req b)
        ++ [adminCopyStudents user req b students.length]).length
        = students.length + 1
    ∧ ((students.map (studentDraft user req b)
        ++ [adminCopyStudents user req b students.length]).filter
          (fun n => n.receiverRole == "student")).length = students.length
    ∧ ((students.map (studentDraft user req b)
        ++ [adminCopyStudents user req b students.length]).filter
          (fun n => n.receiverRole == "all" && n.receiverId == none
            && n.metadata.intendedRole == some "admin")).length = 1
    ∧ ∀ s ∈ students, (studentDraft user req b s).receiverRole = "student"
        ∧ (studentDraft user req b s).receiverId = some s.id := by
  refine ⟨?_, ?_, ?_, ?_, ?_⟩
  · unfold sendTargetedNotificationOp
    simp [hrole, htt, persistUpTo]
  · simp
  · have hmap : (students.map (studentDraft user req b)).filter
        (fun n => n.receiverRole == "student") = students.map (studentDraft user req b) :=
      List.filter_eq_self.mpr (by
        intro x hx
        rcases List.mem_map.mp hx with ⟨s, _, rfl⟩
        rfl)
    simp [List.filter_append, hmap, studentDraft, adminCopyStudents]
  · have hmap : (students.map (studentDraft user req b)).filter
        (fun n => n.receiverRole == "all" && n.receiverId == none
          && n.metadata.intendedRole == some "admin") = [] := by
      rw [List.filter_eq_nil_iff]
      intro x hx
      rcases List.mem_map.mp hx with ⟨s, _, rfl⟩
      simp [studentDraft]
    simp [List.filter_append, hmap, adminCopyStudents]
  · intro s _
    exact ⟨rfl, rfl⟩

/-- C4 witness: concrete fan-out over two students (K = 2 gives 3 records). -/
theorem C4_targeted_students_fanout_witness :
    sendTargetedNotificationOp sampleDriver sampleTargetedReq (some sampleBus)
        [sampleStudentA, sampleStudentB] none
      = (.ok ([sampleStudentA, sampleStudentB].map
               (studentDraft sampleDriver sampleTargetedReq sampleBus)
               ++ [adminCopyStudents sampleDriver sampleTargetedReq sampleBus 2]),
         [sampleStudentA, sampleStudentB].map
             (studentDraft sampleDriver sampleTargetedReq sampleBus)
           ++ [adminCopyStudents sampleDriver sampleTargetedReq sampleBus 2])
    ∧ ([sampleStudentA, sampleStudentB].map
          (studentDraft sampleDriver sampleTargetedReq sampleBus)
        ++ [adminCopyStudents sampleDriver sampleTargetedReq sampleBus 2]).length = 3
    ∧ (([sampleStudentA, sampleStudentB].map
          (studentDraft sampleDriver sampleTargetedReq sampleBus)
        ++ [adminCopyStudents sampleDriver sampleTargetedReq sampleBus 2]).filter
          (fun n => n.receiverRole == "student")).length = 2
    ∧ (([sampleStudentA, sampleStudentB].map
          (studentDraft sampleDriver sampleTargetedReq sampleBus)
        ++ [adminCopyStudents sampleDriver sampleTargetedReq sampleBus 2]).filter
          (fun n => n.receiverRole == "all" && n.receiverId == none
            && n.metadata.intendedRole == some "admin")).length = 1
    ∧ ∀ s ∈ [sampleStudentA, sampleStudentB],
        (studentDraft sampleDriver sampleTargetedReq sampleBus s).receiverRole = "student"
        ∧ (studentDraft sampleDriver sampleTargetedReq sampleBus s).receiverId
            = some s.id := by
  have h := C4_targeted_students_fanout sampleDriver sampleTargetedReq sampleBus
    [sampleStudentA, sampleStudentB] rfl rfl
  simpa using h

/-- C7. Broadcast with a non-empty role list persists exactly one record per
listed role, each with that `receiverRole` and `receiverId = null`; with an
empty role list it fails with the 400 validation response and persists
nothing. -/
theorem C7_broadcast (user : Sender) (req : BroadcastReq) (roles : List String)
    (hroles : req.targetRoles = some roles) :
    (roles ≠ [] →
      broadcastNotificationOp user req
        = (.ok (roles.map (broadcastDraft user req)), roles.map (broadcastDraft user req))
      ∧ (roles.map (broadcastDraft user req)).length = roles.length
      ∧ ∀ r, (broadcastDraft user req r).receiverRole = r
          ∧ (broadcastDraft user req r).receiverId = none)
    ∧ (roles = [] →
      broadcastNotificationOp user req
        = (.error (.badRequest "Target roles are required for broadcast"), [])) := by
  constructor
  · intro hne
    refine ⟨?_, by simp, fun r => ⟨rfl, rfl⟩⟩
    unfold broadcastNotificationOp
    simp [hroles, List.isEmpty_iff, hne]
  · intro he
    unfold broadcastNotificationOp
    simp [hroles, he]

/-- C7 witness: `targetRoles = [driver, student]` yields exactly the two
per-role records; `targetRoles = []` yields the validation error and nothing
persisted. -/
theorem C7_broadcast_witness :
    (broadcastNotificationOp sampleAdmin
        { title := "t", message := "m", targetRoles := some ["driver", "student"] }
      = (.ok (["driver", "student"].map (broadcastDraft sampleAdmin
            { title := "t", message := "m", targetRoles := some ["driver", "student"] })),
         ["driver", "student"].map (broadcastDraft sampleAdmin
            { title := "t", message := "m", targetRoles := some ["driver", "student"] }))
      ∧ (["driver", "student"].map (broadcastDraft sampleAdmin
            { title := "t", message := "m", targetRoles := some ["driver", "student"] })).length
          = (["driver", "student"] : List String).length
      ∧ ∀ r, (broadcastDraft sampleAdmin
            { title := "t", message := "m", targetRoles := some ["driver", "student"] }
            r).receiverRole = r
          ∧ (broadcastDraft sampleAdmin
            { title := "t", message := "m", targetRoles := some ["driver", "student"] }
            r).receiverId = none)
    ∧ broadcastNotificationOp sampleAdmin
        { title := "t", message := "m", targetRoles := some [] }
      = (.error (.badRequest "Target roles are required for broadcast"), []) :=
  ⟨(C7_broadcast sampleAdmin
      { title := "t", message := "m", targetRoles := some ["driver", "student"] }
      ["driver", "student"] rfl).1 (by decide),
   (C7_broadcast sampleAdmin
      { title := "t", message := "m", targetRoles := some [] } [] rfl).2 rfl⟩

/-- C8. Failed preconditions persist nothing: a driver with no assigned bus
sending `targetType = students` gets the 404 response with an empty store
delta, and a non-admin direct-create with `receiverRole = admin` gets the
403 response with an empty store delta. -/
theorem C8_no_records_on_error (user : Sender) (req : TargetedReq)
    (students : List Student) (failAt : Option (Nat × String))
    (hrole : user.role = "driver") (htt : req.targetType = "students")
    (user2 : Sender) (req2 : CreateReq) (users : List UserRec)
    (h2 : user2.role ≠ "admin") (hr2 : req2.receiverRole = "admin") :
    sendTargetedNotificationOp user req none students failAt
      = (.error (.notFound "No bus assigned to you"), [])
    ∧ createNotificationOp user2 req2 users
      = (.error (.forbidden "Only admins can send notifications to other admins"), []) := by
  constructor
  · unfold sendTargetedNotificationOp
    simp [hrole, htt]
  · unfold createNotificationOp
    simp [hr2, h2]

/-- C8 witness: the concrete driver with no bus, and a concrete driver
attempting a direct send to role admin. -/
theorem C8_no_records_on_error_witness :
    sendTargetedNotificationOp sampleDriver sampleTargetedReq none [sampleStudentA] none
      = (.error (.notFound "No bus assigned to you"), [])
    ∧ createNotificationOp sampleDriver
        { title := "t", message := "m", receiverRole := "admin" } []
      = (.error (.forbidden "Only admins can send notifications to other admins"), []) :=
  C8_no_records_on_error sampleDriver sampleTargetedReq [sampleStudentA] none rfl rfl
    sampleDriver { title := "t", message := "m", receiverRole := "admin" } []
    (by decide) rfl

/-- C9. The claim says a mid-fan-out failure reports to the caller how many
records succeeded. The catch block answers 500 with only the fixed message
and the thrown error's message: two runs that fail after 0 and after 1
persisted record return byte-identical responses, so the response carries no
success count (the persisted records are indeed kept, as the differing store
deltas show). -/
theorem C9_counterexample :
    (sendTargetedNotificationOp sampleDriver sampleTargetedReq (some sampleBus)
        [sampleStudentA, sampleStudentB] (some (0, "boom"))).1
      = (sendTargetedNotificationOp sampleDriver sampleTargetedReq (some sampleBus)
        [sampleStudentA, sampleStudentB] (some (1, "boom"))).1
    ∧ (sendTargetedNotificationOp sampleDriver sampleTargetedReq (some sampleBus)
        [sampleStudentA, sampleStudentB] (some (0, "boom"))).2.length = 0
    ∧ (sendTargetedNotificationOp sampleDriver sampleTargetedReq (some sampleBus)
        [sampleStudentA, sampleStudentB] (some (1, "boom"))).2.length = 1 :=
  ⟨rfl, rfl, rfl⟩

/-- C9 (amended). When the k-th create of a students fan-out throws, the
operation answers 500 carrying the specific failure's message (but not the
count of records that succeeded), and the k records persisted before the
failure are kept — nothing is rolled back or deleted. -/
theorem C9_partial_failure (user : Sender) (req : TargetedReq) (b : Bus)
    (students : List Student) (k : Nat) (e : String)
    (hrole : user.role = "driver") (htt : req.targetType = "students")
    (hk : k < students.length + 1) :
    sendTargetedNotificationOp user req (some b) students (some (k, e))
      = (.error (.serverError "Failed to send notification" e),
         (students.map (studentDraft user req b)
           ++ [adminCopyStudents user req b students.length]).take k) := by
  unfold sendTargetedNotificationOp persistUpTo
  simp [hrole, htt, hk]

/-- C9 witness: failure at the second create (k = 1) keeps the one
persisted student record and reports the thrown message. -/
theorem C9_partial_failure_witness :
    sendTargetedNotificationOp sampleDriver sampleTargetedReq (some sampleBus)
        [sampleStudentA, sampleStudentB] (some (1, "boom"))
      = (.error (.serverError "Failed to send notification" "boom"),
         ([sampleStudentA, sampleStudentB].map
             (studentDraft sampleDriver sampleTargetedReq sampleBus)
           ++ [adminCopyStudents sampleDriver sampleTargetedReq sampleBus 2]).take 1) :=
  C9_partial_failure sampleDriver sampleTargetedReq sampleBus
    [sampleStudentA, sampleStudentB] 1 "boom" rfl rfl (by decide)

end CampusRide
